import Mathlib

set_option maxRecDepth 10000

/-!
Verification of the CP2112 LVDC4816 telemetry demo (`cp2112_demo.c`).

The development shallowly embeds the register decode/encode arithmetic and
the polling-loop sequencing of `main`.  Machine integers are modelled as
`Nat`/`Int` with explicit wrapping; the `float` arithmetic of the source is
modelled over `ℚ`, which is exact here because every value produced by the
program is a multiple of `2⁻⁵` of magnitude below `2¹⁶` and hence exactly
representable in IEEE single precision (division by `32.0f`, subtraction of
`40.0f` and multiplication by `32` are all exact on that range).
-/

/-- Truncation of a value to a signed 16-bit integer, as performed by the
assignments to the `INT16` globals (`temperature1_raw = ... ; raw & 0xFFFF`):
the low 16 bits are kept and interpreted in two's complement. -/
def toInt16 (n : Nat) : Int :=
  if n % 65536 < 32768 then ((n % 65536 : Nat) : Int)
  else ((n % 65536 : Nat) : Int) - 65536

/-- Little-endian assembly of a raw register value from the two transferred
bytes, as in `(buffer[1] << 8) | buffer[0]` (first argument is `buffer[0]`,
the low byte; second is `buffer[1]`, the high byte). -/
def assembleRaw (lo hi : Nat) : Nat :=
  (hi <<< 8) ||| lo

/-- Decode of the voltage/current channels (HV `0x88`, LV `0x8B`, I2 `0x8C`,
I1 `0x90`) and of the OCP read (`0xEA`): the raw value is stored in an
`INT16` and divided by `32.0f`, i.e. `raw / 32.0f` on the two's-complement
value. -/
def decode_voltage_or_current (raw : Nat) : ℚ :=
  (toInt16 raw : ℚ) / 32

/-- Decode of the temperature channels (`0x8D`, `0x8E`):
`raw / 32.0f - 40.0f` on the two's-complement `INT16` value. -/
def decode_temperature (raw : Nat) : ℚ :=
  (toInt16 raw : ℚ) / 32 - 40

/-- Encoding of the over-current-protection setpoint, from
`buffer[1] = ((UINT8)(HWOCP_A*32)&0xff);`
`buffer[2] = (UINT8)(((UINT16)(HWOCP_A*32)>>8)&0xff);` —
multiply by 32, truncate, and split into (low byte, high byte). -/
def encode_ocp_setpoint (amps : ℚ) : Nat × Nat :=
  let n : Nat := (amps * 32).floor.toNat
  (n % 256, ((n % 65536) >>> 8) % 256)

/-- Round a rational to the nearest integer, ties to even: the rounding
applied by `printf` `%.2f` to the (here exact) scaled value. -/
def roundHalfEven (q : ℚ) : Int :=
  if q - q.floor < 1/2 then q.floor
  else if 1/2 < q - q.floor then q.floor + 1
  else if q.floor % 2 = 0 then q.floor else q.floor + 1

/-- Left-pad the fractional part to two digits. -/
def pad2 (n : Nat) : String :=
  if n < 10 then "0" ++ toString n else toString n

/-- Rendering of a value by `printf("%2.2f", ...)`: two fractional digits,
round half to even; the minimum field width 2 never pads since every
rendering has at least four characters. -/
def formatFixed2 (q : ℚ) : String :=
  let c : Int := roundHalfEven (q * 100)
  (if q < 0 then "-" else "") ++ toString (c.natAbs / 100) ++ "." ++ pad2 (c.natAbs % 100)

/-- Lowercase hexadecimal rendering of a natural number, no leading zeros. -/
def hexStr (n : Nat) : String :=
  String.mk (Nat.toDigits 16 n)

/-- Rendering of an `int` by `printf("0x%x", ...)`: the argument is
reinterpreted as a 32-bit unsigned value. -/
def hexOfInt (i : Int) : String :=
  "0x" ++ hexStr ((i % 4294967296).toNat)

example : decode_voltage_or_current 3200 = 100 := by
  norm_num [decode_voltage_or_current, toInt16]

example : decode_voltage_or_current 32768 = -1024 := by
  norm_num [decode_voltage_or_current, toInt16]

example : decode_temperature 2560 = 40 := by
  norm_num [decode_temperature, toInt16]

example : encode_ocp_setpoint 600 = (0x00, 0x4B) := by with_unfolding_all decide

example : formatFixed2 160 = "160.00" := by with_unfolding_all decide

example : formatFixed2 (-40) = "-40.00" := by with_unfolding_all decide

example : hexOfInt 0 = "0x0" := by with_unfolding_all decide

example : assembleRaw 0x34 0x12 = 0x1234 := by with_unfolding_all decide

/-- Observable actions of the program, in program order: diagnostic lines on
`stderr`, the operator-acknowledgment `getchar()`, device close, SMBus read
and write requests (and their logged failures), and accesses to the CSV log
`outputA.csv`. -/
inductive Event where
  | diag (s : String)
  | errDiag (s : String)
  | waitKey
  | closeDev
  | readReq (addr : Nat)
  | readErr (addr : Nat)
  | writeReq (addr : Nat)
  | writeErr (addr : Nat)
  | csvOpen
  | csvHeaderWrite (s : String)
  | csvRowWrite (s : String)
  | csvClose
  | sleepMs (n : Nat)
  deriving DecidableEq, Repr

/-- The decoded snapshot of one polling cycle: the values the loop body
stores into the global variables before printing and logging them. -/
structure TelemetryRecord where
  temperature1_raw : Int
  temperature1_C   : ℚ
  temperature2_raw : Int
  temperature2_C   : ℚ
  HVvoltage_raw    : Int
  HVvoltage_V      : ℚ
  LVvoltage_raw    : Int
  LVvoltage_V      : ℚ
  I2_current_raw   : Int
  I2_current_A     : ℚ
  I1_current_raw   : Int
  I1_current_A     : ℚ
  I1_CNT           : Int
  DUT_Status       : Int
  deriving DecidableEq, Repr

/-- Transport behaviour during one loop iteration: for each of the eight
register reads, `some (lo, hi)` means `SMBus_Read` returned 2 bytes and
stored them in `buffer[0]`, `buffer[1]`; `none` means the read failed and
left the buffer untouched.  `csvOpenFp` is the `FILE*` returned by
`fopen("outputA.csv", "a")` (`none` models a null handle). -/
structure IterOutcomes where
  temp1  : Option (Nat × Nat)
  temp2  : Option (Nat × Nat)
  hv     : Option (Nat × Nat)
  lv     : Option (Nat × Nat)
  i2     : Option (Nat × Nat)
  i1     : Option (Nat × Nat)
  cnt    : Option (Nat × Nat)
  status : Option (Nat × Nat)
  csvOpenFp : Option Unit

/-- Effect of one `SMBus_Read` on the two buffer bytes: a successful read
overwrites them, a failed read leaves whatever was there. -/
def step (o : Option (Nat × Nat)) (b : Nat × Nat) : Nat × Nat :=
  o.getD b

/-- Events of one `SMBus_Read` of register `addr`: the request, followed by
the `fprintf(stderr, "ERROR: Could not perform SMBus read...")` line when
fewer than `regLength` bytes came back. -/
def readEvents (addr : Nat) (o : Option (Nat × Nat)) : List Event :=
  match o with
  | some _ => [Event.readReq addr]
  | none => [Event.readReq addr, Event.readErr addr]

/-- Events of one `SMBus_Write` to register `addr`. -/
def writeEvents (addr : Nat) (ok : Bool) : List Event :=
  if ok then [Event.writeReq addr] else [Event.writeReq addr, Event.writeErr addr]

/-- The CSV header row written by the first iteration. -/
def headerLine : String :=
  "HV_V,LV_V,I1_A,I2_A,Temp1_C,Temp2_C,I1_CNT,DUT_Status\n"

/-- The CSV data row, from
`fprintf(fp, "%2.2f,%2.2f,%2.2f,%2.2f,%2.2f,%2.2f,%d,0x%x\n", HVvoltage_V,
LVvoltage_V, I1_current_A, I2_current_A, temperature1_C, temperature2_C,
I1_CNT, DUT_Status)`. -/
def csvRow (r : TelemetryRecord) : String :=
  formatFixed2 r.HVvoltage_V ++ "," ++ formatFixed2 r.LVvoltage_V ++ ","
    ++ formatFixed2 r.I1_current_A ++ "," ++ formatFixed2 r.I2_current_A ++ ","
    ++ formatFixed2 r.temperature1_C ++ "," ++ formatFixed2 r.temperature2_C ++ ","
    ++ toString r.I1_CNT ++ "," ++ hexOfInt r.DUT_Status ++ "\n"

/-- The record line printed to `stderr` each iteration. -/
def recordLine (r : TelemetryRecord) : String :=
  "HV_V=" ++ formatFixed2 r.HVvoltage_V ++ ", LV_V=" ++ formatFixed2 r.LVvoltage_V
    ++ ", I1_A=" ++ formatFixed2 r.I1_current_A ++ ", I2_A=" ++ formatFixed2 r.I2_current_A
    ++ ", Temp1_C=" ++ formatFixed2 r.temperature1_C ++ ", Temp2_C=" ++ formatFixed2 r.temperature2_C
    ++ ", I1_CNT=" ++ toString r.I1_CNT ++ ", DUT_Status=" ++ hexOfInt r.DUT_Status

/-- The CSV block of one iteration: `first_timeA++` has already produced
`firstA`; then `fopen("outputA.csv", "a")`, the header iff `first_timeA == 1`,
one data row and `fclose`.  The returned handle `fp` is never checked, so the
writes happen regardless of its value. -/
def csvStep (_fp : Option Unit) (firstA : Nat) (row : String) : List Event :=
  [Event.csvOpen]
    ++ (if firstA = 1 then [Event.csvHeaderWrite headerLine] else [])
    ++ [Event.csvRowWrite row, Event.csvClose]

/-- Result of one loop iteration: the assembled record, the final contents of
the two buffer bytes, the updated `first_timeA` counter and the emitted
events. -/
structure IterResult where
  record : TelemetryRecord
  buf    : Nat × Nat
  firstA : Nat
  events : List Event
  deriving Repr

/-- One iteration of the `while(1)` polling loop, lines 140-257 of
`cp2112_demo.c`: zero `buffer[0..1]`, read the eight registers in the fixed
order `0x8D, 0x8E, 0x88, 0x8B, 0x8C, 0x90, 0xCD, 0x79`, decode each from
whatever the buffer then holds, print the record, append it to the CSV log
(header first iff this is the first iteration) and sleep 500 ms. -/
def runIteration (oc : IterOutcomes) (_bufIn : Nat × Nat) (firstA : Nat) : IterResult :=
  let b0 : Nat × Nat := (0, 0)
  let b1 := step oc.temp1 b0
  let b2 := step oc.temp2 b1
  let b3 := step oc.hv b2
  let b4 := step oc.lv b3
  let b5 := step oc.i2 b4
  let b6 := step oc.i1 b5
  let b7 := step oc.cnt b6
  let b8 := step oc.status b7
  let r : TelemetryRecord :=
    { temperature1_raw := toInt16 (assembleRaw b1.1 b1.2)
      temperature1_C   := decode_temperature (assembleRaw b1.1 b1.2)
      temperature2_raw := toInt16 (assembleRaw b2.1 b2.2)
      temperature2_C   := decode_temperature (assembleRaw b2.1 b2.2)
      HVvoltage_raw    := toInt16 (assembleRaw b3.1 b3.2)
      HVvoltage_V      := decode_voltage_or_current (assembleRaw b3.1 b3.2)
      LVvoltage_raw    := toInt16 (assembleRaw b4.1 b4.2)
      LVvoltage_V      := decode_voltage_or_current (assembleRaw b4.1 b4.2)
      I2_current_raw   := toInt16 (assembleRaw b5.1 b5.2)
      I2_current_A     := decode_voltage_or_current (assembleRaw b5.1 b5.2)
      I1_current_raw   := toInt16 (assembleRaw b6.1 b6.2)
      I1_current_A     := decode_voltage_or_current (assembleRaw b6.1 b6.2)
      I1_CNT           := toInt16 (assembleRaw b7.1 b7.2)
      DUT_Status       := toInt16 (assembleRaw b8.1 b8.2) }
  { record := r
    buf := b8
    firstA := firstA + 1
    events :=
      readEvents 0x8D oc.temp1 ++ readEvents 0x8E oc.temp2 ++ readEvents 0x88 oc.hv
        ++ readEvents 0x8B oc.lv ++ readEvents 0x8C oc.i2 ++ readEvents 0x90 oc.i1
        ++ readEvents 0xCD oc.cnt ++ readEvents 0x79 oc.status
        ++ [Event.diag (recordLine r)]
        ++ csvStep oc.csvOpenFp (firstA + 1) (csvRow r)
        ++ [Event.sleepMs 500] }

/-- Result of running the loop for a finite prefix of iterations. -/
structure LoopResult where
  buf    : Nat × Nat
  firstA : Nat
  events : List Event

/-- Run the polling loop over a finite list of per-iteration transport
behaviours, threading the buffer and the `first_timeA` counter. -/
def runLoop : List IterOutcomes → (Nat × Nat) → Nat → LoopResult
  | [], buf, fa => ⟨buf, fa, []⟩
  | oc :: rest, buf, fa =>
    let it := runIteration oc buf fa
    let lr := runLoop rest it.buf it.firstA
    ⟨lr.buf, lr.firstA, it.events ++ lr.events⟩

/-- Transport behaviour during the startup sequence (after a successful open
and configure): the `MFRversion` read, the first OCP read, the write-protect
write, the OCP setpoint write, and the OCP re-read. -/
structure StartupOutcomes where
  mfr        : Option (Nat × Nat)
  ocp1       : Option (Nat × Nat)
  wpOk       : Bool
  ocpWriteOk : Bool
  ocp2       : Option (Nat × Nat)

/-- The startup sequence of `main` after configuration, lines 70-138:
read `MFRversion` (0x9B), read and print the OCP setpoint (0xEA), send the
write-protect-disable payload (register 0x10), write the new 600 A OCP
setpoint encoded by `encode_ocp_setpoint`, and re-read the OCP register.
Each failure is only logged.  The buffer is overwritten by the write
payloads, so a failed re-read decodes the leftover payload bytes. -/
def runStartup (so : StartupOutcomes) (bufIn : Nat × Nat) : (Nat × Nat) × List Event :=
  let b1 := step so.mfr bufIn
  let b2 := step so.ocp1 b1
  let _b3 : Nat × Nat := (0x10, 0)
  let b4 : Nat × Nat := (0xEA, (encode_ocp_setpoint 600).1)
  let b5 := step so.ocp2 b4
  (b5,
    readEvents 0x9B so.mfr
      ++ [Event.diag ("MFRversion=" ++ hexOfInt (toInt16 (assembleRaw b1.1 b1.2)))]
      ++ readEvents 0xEA so.ocp1
      ++ [Event.diag ("HWOCP=" ++ formatFixed2 (decode_voltage_or_current (assembleRaw b2.1 b2.2)))]
      ++ writeEvents 0x10 so.wpOk
      ++ [Event.diag ("Setting HWOCP to " ++ toString (encode_ocp_setpoint 600).1),
          Event.diag ("Setting HWOCP to " ++ toString (encode_ocp_setpoint 600).2)]
      ++ writeEvents 0xEA so.ocpWriteOk
      ++ readEvents 0xEA so.ocp2
      ++ [Event.diag ("HWOCP=" ++ formatFixed2 (decode_voltage_or_current (assembleRaw b5.1 b5.2)))])

/-- The whole program over a finite observation window: open, configure,
startup sequence, then the polling loop.  A failed open or configure prints
an error, closes the device, prompts, waits for `getchar()` and exits with
`-1`; otherwise the loop runs (it never terminates, so the exit code is
`none`). -/
def runProgram (openOk configOk : Bool) (bufIn : Nat × Nat) (so : StartupOutcomes)
    (iters : List IterOutcomes) : Option Int × List Event :=
  if openOk = false then
    (some (-1),
      [Event.errDiag "ERROR: Could not open device.", Event.closeDev,
       Event.diag "Enter to exit...", Event.waitKey])
  else if configOk = false then
    (some (-1),
      [Event.diag "Device successfully opened.",
       Event.errDiag "ERROR: Could not configure device.", Event.closeDev,
       Event.diag "Enter to exit...", Event.waitKey])
  else
    let st := runStartup so bufIn
    let lr := runLoop iters st.1 0
    (none,
      [Event.diag "Device successfully opened.", Event.diag "Device successfully configured."]
        ++ st.2 ++ lr.events)

/-- Recognise a CSV header write. -/
def Event.isHeaderWrite : Event → Bool
  | Event.csvHeaderWrite _ => true
  | _ => false

/-- Recognise a CSV data-row write. -/
def Event.isRowWrite : Event → Bool
  | Event.csvRowWrite _ => true
  | _ => false

/-- Recognise a `fopen` of the CSV log. -/
def Event.isCsvOpen : Event → Bool
  | Event.csvOpen => true
  | _ => false

/-- Recognise a `fclose` of the CSV log. -/
def Event.isCsvClose : Event → Bool
  | Event.csvClose => true
  | _ => false

/-- The register address of a read request, if the event is one. -/
def readReqAddr : Event → Option Nat
  | Event.readReq a => some a
  | _ => none

/-- The register address of a logged read failure, if the event is one. -/
def readErrAddr : Event → Option Nat
  | Event.readErr a => some a
  | _ => none

/-- The addresses of the registers whose read failed in one iteration, in
issue order. -/
def failedAddrs (oc : IterOutcomes) : List Nat :=
  (if oc.temp1 = none then [0x8D] else []) ++ (if oc.temp2 = none then [0x8E] else [])
    ++ (if oc.hv = none then [0x88] else []) ++ (if oc.lv = none then [0x8B] else [])
    ++ (if oc.i2 = none then [0x8C] else []) ++ (if oc.i1 = none then [0x90] else [])
    ++ (if oc.cnt = none then [0xCD] else []) ++ (if oc.status = none then [0x79] else [])

lemma readEvents_filterMap_req (a : Nat) (o : Option (Nat × Nat)) :
    (readEvents a o).filterMap readReqAddr = [a] := by
  cases o <;> rfl

lemma readEvents_filterMap_err (a : Nat) (o : Option (Nat × Nat)) :
    (readEvents a o).filterMap readErrAddr = if o = none then [a] else [] := by
  cases o <;> rfl

lemma csvStep_filterMap_req (fp : Option Unit) (n : Nat) (row : String) :
    (csvStep fp n row).filterMap readReqAddr = [] := by
  unfold csvStep; split <;> rfl

lemma csvStep_filterMap_err (fp : Option Unit) (n : Nat) (row : String) :
    (csvStep fp n row).filterMap readErrAddr = [] := by
  unfold csvStep; split <;> rfl

lemma readEvents_countP (p : Event → Bool) (a : Nat) (o : Option (Nat × Nat))
    (h1 : p (Event.readReq a) = false) (h2 : p (Event.readErr a) = false) :
    (readEvents a o).countP p = 0 := by
  cases o <;> simp [readEvents, List.countP_cons, h1, h2]

lemma csvStep_countP_open (fp : Option Unit) (n : Nat) (row : String) :
    (csvStep fp n row).countP Event.isCsvOpen = 1 := by
  unfold csvStep; split <;> rfl

lemma csvStep_countP_close (fp : Option Unit) (n : Nat) (row : String) :
    (csvStep fp n row).countP Event.isCsvClose = 1 := by
  unfold csvStep; split <;> rfl

lemma csvStep_countP_row (fp : Option Unit) (n : Nat) (row : String) :
    (csvStep fp n row).countP Event.isRowWrite = 1 := by
  unfold csvStep; split <;> rfl

lemma csvStep_countP_header (fp : Option Unit) (n : Nat) (row : String) :
    (csvStep fp n row).countP Event.isHeaderWrite = if n = 1 then 1 else 0 := by
  unfold csvStep
  by_cases h : n = 1
  · rw [if_pos h, if_pos h]; rfl
  · rw [if_neg h, if_neg h]; rfl

lemma runIteration_events (oc : IterOutcomes) (buf : Nat × Nat) (fa : Nat) :
    (runIteration oc buf fa).events =
      readEvents 0x8D oc.temp1 ++ readEvents 0x8E oc.temp2 ++ readEvents 0x88 oc.hv
        ++ readEvents 0x8B oc.lv ++ readEvents 0x8C oc.i2 ++ readEvents 0x90 oc.i1
        ++ readEvents 0xCD oc.cnt ++ readEvents 0x79 oc.status
        ++ [Event.diag (recordLine (runIteration oc buf fa).record)]
        ++ csvStep oc.csvOpenFp (fa + 1) (csvRow (runIteration oc buf fa).record)
        ++ [Event.sleepMs 500] := by
  rfl

lemma runIteration_countP_row (oc : IterOutcomes) (buf : Nat × Nat) (fa : Nat) :
    (runIteration oc buf fa).events.countP Event.isRowWrite = 1 := by
  rw [runIteration_events]
  simp only [List.countP_append, readEvents_countP Event.isRowWrite _ _ rfl rfl,
    csvStep_countP_row]
  rfl

lemma runIteration_countP_open (oc : IterOutcomes) (buf : Nat × Nat) (fa : Nat) :
    (runIteration oc buf fa).events.countP Event.isCsvOpen = 1 := by
  rw [runIteration_events]
  simp only [List.countP_append, readEvents_countP Event.isCsvOpen _ _ rfl rfl,
    csvStep_countP_open]
  rfl

lemma runIteration_countP_close (oc : IterOutcomes) (buf : Nat × Nat) (fa : Nat) :
    (runIteration oc buf fa).events.countP Event.isCsvClose = 1 := by
  rw [runIteration_events]
  simp only [List.countP_append, readEvents_countP Event.isCsvClose _ _ rfl rfl,
    csvStep_countP_close]
  rfl

lemma runIteration_countP_header (oc : IterOutcomes) (buf : Nat × Nat) (fa : Nat) :
    (runIteration oc buf fa).events.countP Event.isHeaderWrite
      = if fa = 0 then 1 else 0 := by
  rw [runIteration_events]
  simp only [List.countP_append, readEvents_countP Event.isHeaderWrite _ _ rfl rfl,
    csvStep_countP_header]
  rcases Nat.eq_zero_or_pos fa with h | h
  · subst h; rfl
  · rw [if_neg (by omega), if_neg (by omega)]; rfl

lemma runIteration_firstA (oc : IterOutcomes) (buf : Nat × Nat) (fa : Nat) :
    (runIteration oc buf fa).firstA = fa + 1 := rfl

lemma runLoop_countP_const (p : Event → Bool)
    (h : ∀ oc buf fa, (runIteration oc buf fa).events.countP p = 1) :
    ∀ (iters : List IterOutcomes) (buf : Nat × Nat) (fa : Nat),
      (runLoop iters buf fa).events.countP p = iters.length := by
  intro iters
  induction iters with
  | nil => intro buf fa; rfl
  | cons oc rest ih =>
    intro buf fa
    simp only [runLoop, List.countP_append, h, ih, List.length_cons]
    omega

lemma runLoop_countP_header_pos (iters : List IterOutcomes) (buf : Nat × Nat)
    (fa : Nat) (h : fa ≠ 0) :
    (runLoop iters buf fa).events.countP Event.isHeaderWrite = 0 := by
  induction iters generalizing buf fa with
  | nil => rfl
  | cons oc rest ih =>
    have h1 : fa + 1 ≠ 0 := by omega
    simp only [runLoop, List.countP_append, runIteration_countP_header, if_neg h,
      runIteration_firstA, ih _ _ h1]

lemma assembleRaw_eq (lo hi : Nat) (h : lo < 256) :
    assembleRaw lo hi = hi * 256 + lo := by
  unfold assembleRaw
  rw [Nat.shiftLeft_eq, Nat.mul_comm hi (2 ^ 8),
    ← Nat.mul_add_lt_is_or (show lo < 2 ^ 8 from h) hi]

lemma ratFloor_natCast (k : Nat) : ((k : ℚ)).floor = (k : Int) := by
  rw [Rat.floor_def']
  simp

lemma toInt16_of_lt (k : Nat) (h : k < 32768) : toInt16 k = (k : Int) := by
  unfold toInt16
  rw [Nat.mod_eq_of_lt (by omega), if_pos (by omega)]

/-- C1 counterexample: the voltage/current decode is not `raw / 32.0` on all
of `[0, 65535]` — at `raw = 32768` the code stores the raw value in an
`INT16`, so it decodes the two's-complement value `-32768` and yields
`-1024.0`, not `1024.0`. -/
theorem c1_unsigned_decode_fails :
    decode_voltage_or_current 32768 = -1024
    ∧ decode_voltage_or_current 32768 ≠ (32768 : ℚ) / 32 := by
  constructor
  · norm_num [decode_voltage_or_current, toInt16]
  · norm_num [decode_voltage_or_current, toInt16]

/-- C1 (amended): for every 16-bit raw value the voltage/current decode
(shared by HV, LV, I1, I2 and the OCP read) returns `raw / 32.0` when
`raw < 32768` and `(raw - 65536) / 32.0` otherwise (two's-complement
interpretation of the `INT16` store); e.g. `raw = 3200` decodes to
`100.00`. -/
theorem c1_decode_voltage_or_current (raw : Nat) (h : raw < 65536) :
    decode_voltage_or_current raw =
      (if raw < 32768 then (raw : ℚ) else (raw : ℚ) - 65536) / 32
    ∧ decode_voltage_or_current 3200 = 100 := by
  refine ⟨?_, by norm_num [decode_voltage_or_current, toInt16]⟩
  unfold decode_voltage_or_current toInt16
  rw [Nat.mod_eq_of_lt h]
  by_cases h2 : raw < 32768
  · rw [if_pos h2, if_pos h2]; push_cast; ring
  · rw [if_neg h2, if_neg h2]; push_cast; ring

/-- Witness for `c1_decode_voltage_or_current` at `raw = 40000`. -/
theorem c1_decode_voltage_or_current_witness :
    (decode_voltage_or_current 40000 =
        (if (40000 : Nat) < 32768 then ((40000 : Nat) : ℚ)
         else ((40000 : Nat) : ℚ) - 65536) / 32
      ∧ decode_voltage_or_current 3200 = 100) :=
  c1_decode_voltage_or_current 40000 (by norm_num)

/-- C2 counterexample: the temperature decode is not `raw / 32.0 - 40.0` on
all 16-bit values — at `raw = 32768` the code decodes the two's-complement
value and yields `-1064.0`, not `984.0`. -/
theorem c2_unsigned_decode_fails :
    decode_temperature 32768 = -1064
    ∧ decode_temperature 32768 ≠ (32768 : ℚ) / 32 - 40 := by
  constructor
  · norm_num [decode_temperature, toInt16]
  · norm_num [decode_temperature, toInt16]

/-- C2 (amended): the temperature decode returns `raw / 32.0 - 40.0` when
`raw < 32768` and `(raw - 65536) / 32.0 - 40.0` otherwise; e.g. `raw = 2560`
decodes to `40.00` and `raw = 1280` to `0.00`. -/
theorem c2_decode_temperature (raw : Nat) (h : raw < 65536) :
    decode_temperature raw =
      (if raw < 32768 then (raw : ℚ) else (raw : ℚ) - 65536) / 32 - 40
    ∧ decode_temperature 2560 = 40
    ∧ decode_temperature 1280 = 0 := by
  refine ⟨?_, by norm_num [decode_temperature, toInt16],
    by norm_num [decode_temperature, toInt16]⟩
  unfold decode_temperature toInt16
  rw [Nat.mod_eq_of_lt h]
  by_cases h2 : raw < 32768
  · rw [if_pos h2, if_pos h2]; push_cast; ring
  · rw [if_neg h2, if_neg h2]; push_cast; ring

/-- Witness for `c2_decode_temperature` at `raw = 40000`. -/
theorem c2_decode_temperature_witness :
    (decode_temperature 40000 =
        (if (40000 : Nat) < 32768 then ((40000 : Nat) : ℚ)
         else ((40000 : Nat) : ℚ) - 65536) / 32 - 40
      ∧ decode_temperature 2560 = 40
      ∧ decode_temperature 1280 = 0) :=
  c2_decode_temperature 40000 (by norm_num)

/-- C3 counterexample: the encode/decode round-trip fails inside the claimed
range `[0, 2047.96875]` — `amps = 1024.0` encodes to raw `0x8000`, which the
(signed) OCP decode returns as `-1024.0`, not `1024.0`. -/
theorem c3_roundtrip_fails_at_1024 :
    decode_voltage_or_current
        (assembleRaw (encode_ocp_setpoint 1024).1 (encode_ocp_setpoint 1024).2)
      = -1024
    ∧ decode_voltage_or_current
        (assembleRaw (encode_ocp_setpoint 1024).1 (encode_ocp_setpoint 1024).2)
      ≠ 1024 := by
  constructor
  · with_unfolding_all decide
  · with_unfolding_all decide

/-- C3 (amended): `encode_ocp_setpoint` multiplies by 32, truncates, and
splits into little-endian bytes — `encode_ocp_setpoint 600 = (0x00, 0x4B)` —
and the round-trip with the voltage/current decode is exact for every amp
value representable at 1/32 A resolution in `[0, 1023.96875]` (raw values
below `0x8000`); above that the signed decode breaks it. -/
theorem c3_encode_ocp_setpoint (k : Nat) (h : k < 32768) :
    encode_ocp_setpoint 600 = (0x00, 0x4B)
    ∧ (encode_ocp_setpoint ((k : ℚ) / 32)).1 = k % 256
    ∧ (encode_ocp_setpoint ((k : ℚ) / 32)).2 = k / 256
    ∧ decode_voltage_or_current
        (assembleRaw (encode_ocp_setpoint ((k : ℚ) / 32)).1
          (encode_ocp_setpoint ((k : ℚ) / 32)).2) = (k : ℚ) / 32 := by
  have hk : ((k : ℚ) / 32 * 32) = (k : ℚ) := by field_simp
  have hn : ((k : ℚ) / 32 * 32).floor.toNat = k := by
    rw [hk, ratFloor_natCast, Int.toNat_natCast]
  have h256 : (2 : Nat) ^ 8 = 256 := by norm_num
  have henc : encode_ocp_setpoint ((k : ℚ) / 32) = (k % 256, k / 256) := by
    unfold encode_ocp_setpoint
    rw [hn]
    show (k % 256, ((k % 65536) >>> 8) % 256) = (k % 256, k / 256)
    rw [Nat.shiftRight_eq_div_pow, h256, Nat.mod_eq_of_lt (show k < 65536 by omega),
      Nat.mod_eq_of_lt (show k / 256 < 256 by omega)]
  have hassem : assembleRaw (k % 256) (k / 256) = k := by
    rw [assembleRaw_eq _ _ (Nat.mod_lt _ (by norm_num))]
    omega
  refine ⟨by with_unfolding_all decide, by rw [henc], by rw [henc], ?_⟩
  rw [henc]
  show decode_voltage_or_current (assembleRaw (k % 256) (k / 256)) = (k : ℚ) / 32
  rw [hassem]
  unfold decode_voltage_or_current
  rw [toInt16_of_lt k h]
  push_cast
  ring

/-- Witness for `c3_encode_ocp_setpoint` at `k = 19200` (600 A). -/
theorem c3_encode_ocp_setpoint_witness :
    (encode_ocp_setpoint 600 = (0x00, 0x4B)
      ∧ (encode_ocp_setpoint (((19200 : Nat) : ℚ) / 32)).1 = 19200 % 256
      ∧ (encode_ocp_setpoint (((19200 : Nat) : ℚ) / 32)).2 = 19200 / 256
      ∧ decode_voltage_or_current
          (assembleRaw (encode_ocp_setpoint (((19200 : Nat) : ℚ) / 32)).1
            (encode_ocp_setpoint (((19200 : Nat) : ℚ) / 32)).2)
        = ((19200 : Nat) : ℚ) / 32) :=
  c3_encode_ocp_setpoint 19200 (by norm_num)

/-- C8: a raw register value is assembled from the two transferred bytes as
`(high_byte << 8) | low_byte`, which on bytes equals `high * 256 + low` (a
16-bit value); on bytes `[0x34, 0x12]` (low, high) it yields `0x1234`. -/
theorem c8_byte_assembly (lo hi : Nat) (h1 : lo < 256) (h2 : hi < 256) :
    assembleRaw lo hi = hi * 256 + lo
    ∧ assembleRaw lo hi < 65536
    ∧ assembleRaw 0x34 0x12 = 0x1234 := by
  refine ⟨assembleRaw_eq lo hi h1, ?_, by with_unfolding_all decide⟩
  rw [assembleRaw_eq lo hi h1]
  omega

/-- Witness for `c8_byte_assembly` at the bytes `[0x34, 0x12]`. -/
theorem c8_byte_assembly_witness :
    (assembleRaw 0x34 0x12 = 0x12 * 256 + 0x34
      ∧ assembleRaw 0x34 0x12 < 65536
      ∧ assembleRaw 0x34 0x12 = 0x1234) :=
  c8_byte_assembly 0x34 0x12 (by norm_num) (by norm_num)

lemma runProgram_open_fail (configOk : Bool) (bufIn : Nat × Nat) (so : StartupOutcomes)
    (iters : List IterOutcomes) :
    runProgram false configOk bufIn so iters =
      (some (-1),
        [Event.errDiag "ERROR: Could not open device.", Event.closeDev,
         Event.diag "Enter to exit...", Event.waitKey]) := rfl

lemma runProgram_config_fail (bufIn : Nat × Nat) (so : StartupOutcomes)
    (iters : List IterOutcomes) :
    runProgram true false bufIn so iters =
      (some (-1),
        [Event.diag "Device successfully opened.",
         Event.errDiag "ERROR: Could not configure device.", Event.closeDev,
         Event.diag "Enter to exit...", Event.waitKey]) := rfl

/-- C5: across any non-empty run of the polling loop starting from
`first_timeA = 0`, the CSV header is written exactly once, and it is written
during the first iteration (whatever the read outcomes of that iteration —
every iteration produces a record); every iteration appends exactly one data
row and performs exactly one `fopen` and one `fclose` of the append-mode
log. -/
theorem c5_header_exactly_once (oc : IterOutcomes) (rest : List IterOutcomes)
    (buf : Nat × Nat) :
    (runLoop (oc :: rest) buf 0).events.countP Event.isHeaderWrite = 1
    ∧ (runIteration oc buf 0).events.countP Event.isHeaderWrite = 1
    ∧ (runLoop (oc :: rest) buf 0).events.countP Event.isRowWrite = rest.length + 1
    ∧ (runLoop (oc :: rest) buf 0).events.countP Event.isCsvOpen = rest.length + 1
    ∧ (runLoop (oc :: rest) buf 0).events.countP Event.isCsvClose = rest.length + 1
    ∧ (∀ oc2 buf2 fa2, (runIteration oc2 buf2 fa2).events.countP Event.isRowWrite = 1
        ∧ (runIteration oc2 buf2 fa2).events.countP Event.isCsvOpen = 1
        ∧ (runIteration oc2 buf2 fa2).events.countP Event.isCsvClose = 1) := by
  refine ⟨?_, ?_, ?_, ?_, ?_, fun oc2 buf2 fa2 =>
    ⟨runIteration_countP_row oc2 buf2 fa2, runIteration_countP_open oc2 buf2 fa2,
      runIteration_countP_close oc2 buf2 fa2⟩⟩
  · simp only [runLoop, List.countP_append, runIteration_countP_header,
      runIteration_firstA, runLoop_countP_header_pos _ _ _ Nat.one_ne_zero]
    rfl
  · rw [runIteration_countP_header]
    rfl
  · rw [runLoop_countP_const Event.isRowWrite runIteration_countP_row]
    simp
  · rw [runLoop_countP_const Event.isCsvOpen runIteration_countP_open]
    simp
  · rw [runLoop_countP_const Event.isCsvClose runIteration_countP_close]
    simp

/-- C6: every iteration issues exactly the eight register reads in the fixed
order temperature1 (0x8D), temperature2 (0x8E), HV (0x88), LV (0x8B),
I2 (0x8C), I1 (0x90), I1-count (0xCD), status (0x79), whatever the outcomes;
exactly the failed reads are logged to the error stream, in issue order; the
iteration still produces its one CSV row, and a loop over any outcome list
still runs one row per iteration. -/
theorem c6_read_sequence (oc : IterOutcomes) (buf : Nat × Nat) (fa : Nat)
    (iters : List IterOutcomes) (buf2 : Nat × Nat) (fa2 : Nat) :
    (runIteration oc buf fa).events.filterMap readReqAddr
      = [0x8D, 0x8E, 0x88, 0x8B, 0x8C, 0x90, 0xCD, 0x79]
    ∧ (runIteration oc buf fa).events.filterMap readErrAddr = failedAddrs oc
    ∧ (runIteration oc buf fa).events.countP Event.isRowWrite = 1
    ∧ (runLoop iters buf2 fa2).events.countP Event.isRowWrite = iters.length := by
  refine ⟨?_, ?_, runIteration_countP_row oc buf fa,
    runLoop_countP_const Event.isRowWrite runIteration_countP_row iters buf2 fa2⟩
  · rw [runIteration_events]
    simp only [List.filterMap_append, readEvents_filterMap_req, csvStep_filterMap_req]
    rfl
  · rw [runIteration_events]
    simp only [List.filterMap_append, readEvents_filterMap_err, csvStep_filterMap_err]
    unfold failedAddrs
    simp [readErrAddr]

/-- C7: if opening or configuring the transport fails, the program reports an
error, waits for the operator (`getchar`), closes the device and exits with
`-1`; no register read or write is issued and the CSV log is never touched on
that path. -/
theorem c7_fatal_startup (openOk configOk : Bool) (bufIn : Nat × Nat)
    (so : StartupOutcomes) (iters : List IterOutcomes)
    (h : openOk = false ∨ configOk = false) :
    (runProgram openOk configOk bufIn so iters).1 = some (-1)
    ∧ (∃ s, Event.errDiag s ∈ (runProgram openOk configOk bufIn so iters).2)
    ∧ Event.waitKey ∈ (runProgram openOk configOk bufIn so iters).2
    ∧ Event.closeDev ∈ (runProgram openOk configOk bufIn so iters).2
    ∧ (∀ a, Event.readReq a ∉ (runProgram openOk configOk bufIn so iters).2)
    ∧ (∀ a, Event.writeReq a ∉ (runProgram openOk configOk bufIn so iters).2)
    ∧ Event.csvOpen ∉ (runProgram openOk configOk bufIn so iters).2
    ∧ (∀ s, Event.csvHeaderWrite s ∉ (runProgram openOk configOk bufIn so iters).2)
    ∧ (∀ s, Event.csvRowWrite s ∉ (runProgram openOk configOk bufIn so iters).2) := by
  have main : ∀ openOk2 configOk2, (openOk2 = false ∨ (openOk2 = true ∧ configOk2 = false)) →
      (runProgram openOk2 configOk2 bufIn so iters).1 = some (-1)
      ∧ (∃ s, Event.errDiag s ∈ (runProgram openOk2 configOk2 bufIn so iters).2)
      ∧ Event.waitKey ∈ (runProgram openOk2 configOk2 bufIn so iters).2
      ∧ Event.closeDev ∈ (runProgram openOk2 configOk2 bufIn so iters).2
      ∧ (∀ a, Event.readReq a ∉ (runProgram openOk2 configOk2 bufIn so iters).2)
      ∧ (∀ a, Event.writeReq a ∉ (runProgram openOk2 configOk2 bufIn so iters).2)
      ∧ Event.csvOpen ∉ (runProgram openOk2 configOk2 bufIn so iters).2
      ∧ (∀ s, Event.csvHeaderWrite s ∉ (runProgram openOk2 configOk2 bufIn so iters).2)
      ∧ (∀ s, Event.csvRowWrite s ∉ (runProgram openOk2 configOk2 bufIn so iters).2) := by
    rintro openOk2 configOk2 (rfl | ⟨rfl, rfl⟩)
    · rw [runProgram_open_fail]
      exact ⟨rfl, ⟨"ERROR: Could not open device.", by simp⟩, by simp, by simp,
        fun a => by simp, fun a => by simp, by simp, fun s => by simp, fun s => by simp⟩
    · rw [runProgram_config_fail]
      exact ⟨rfl, ⟨"ERROR: Could not configure device.", by simp⟩, by simp, by simp,
        fun a => by simp, fun a => by simp, by simp, fun s => by simp, fun s => by simp⟩
  rcases h with h | h
  · exact main openOk configOk (Or.inl h)
  · cases openOk with
    | false => exact main false configOk (Or.inl rfl)
    | true => exact main true configOk (Or.inr ⟨rfl, h⟩)

/-- Witness for `c7_fatal_startup`: a failed open with an otherwise healthy
transport. -/
theorem c7_fatal_startup_witness :
    ((runProgram false true (0, 0) ⟨none, none, true, true, none⟩ []).1 = some (-1)
      ∧ (∃ s, Event.errDiag s ∈ (runProgram false true (0, 0) ⟨none, none, true, true, none⟩ []).2)
      ∧ Event.waitKey ∈ (runProgram false true (0, 0) ⟨none, none, true, true, none⟩ []).2
      ∧ Event.closeDev ∈ (runProgram false true (0, 0) ⟨none, none, true, true, none⟩ []).2
      ∧ (∀ a, Event.readReq a ∉ (runProgram false true (0, 0) ⟨none, none, true, true, none⟩ []).2)
      ∧ (∀ a, Event.writeReq a ∉ (runProgram false true (0, 0) ⟨none, none, true, true, none⟩ []).2)
      ∧ Event.csvOpen ∉ (runProgram false true (0, 0) ⟨none, none, true, true, none⟩ []).2
      ∧ (∀ s, Event.csvHeaderWrite s ∉ (runProgram false true (0, 0) ⟨none, none, true, true, none⟩ []).2)
      ∧ (∀ s, Event.csvRowWrite s ∉ (runProgram false true (0, 0) ⟨none, none, true, true, none⟩ []).2)) :=
  c7_fatal_startup false true (0, 0) ⟨none, none, true, true, none⟩ [] (Or.inl rfl)

/-- C9: the loop zeroes `buffer[0..1]` at the top of every iteration, so the
iteration's outcome is independent of any bytes left from before the
iteration, and a failed first (temperature1) read decodes raw `0`, i.e.
`-40.0` °C, not stale data from the previous iteration. -/
theorem c9_buffer_zeroed (oc : IterOutcomes) (buf buf' : Nat × Nat) (fa : Nat)
    (h : oc.temp1 = none) :
    runIteration oc buf fa = runIteration oc buf' fa
    ∧ (runIteration oc buf fa).record.temperature1_raw = 0
    ∧ (runIteration oc buf fa).record.temperature1_C = -40 := by
  refine ⟨rfl, ?_, ?_⟩
  · have e : (runIteration oc buf fa).record.temperature1_raw
        = toInt16 (assembleRaw (step oc.temp1 (0, 0)).1 (step oc.temp1 (0, 0)).2) := rfl
    rw [e, h]
    rfl
  · have e : (runIteration oc buf fa).record.temperature1_C
        = decode_temperature (assembleRaw (step oc.temp1 (0, 0)).1 (step oc.temp1 (0, 0)).2) := rfl
    rw [e, h]
    show decode_temperature (assembleRaw 0 0) = -40
    norm_num [decode_temperature, toInt16, assembleRaw]

/-- Witness for `c9_buffer_zeroed`: all reads fail; two distinct incoming
buffers give the same iteration and temperature1 decodes to `-40.0`. -/
theorem c9_buffer_zeroed_witness :
    (runIteration ⟨none, none, none, none, none, none, none, none, some ()⟩ (3, 4) 0
        = runIteration ⟨none, none, none, none, none, none, none, none, some ()⟩ (5, 6) 0
      ∧ (runIteration ⟨none, none, none, none, none, none, none, none, some ()⟩ (3, 4) 0).record.temperature1_raw = 0
      ∧ (runIteration ⟨none, none, none, none, none, none, none, none, some ()⟩ (3, 4) 0).record.temperature1_C = -40) :=
  c9_buffer_zeroed ⟨none, none, none, none, none, none, none, none, some ()⟩ (3, 4) (5, 6) 0 rfl

/-- C10: the CSV block never inspects the `fopen` result — its behaviour with
a null handle is identical to its behaviour with a valid one, and the row
write (and the open) are issued even when `fopen` returned null; every
iteration performs its one `fopen`. -/
theorem c10_unchecked_fopen (fp : Option Unit) (firstA : Nat) (row : String)
    (oc : IterOutcomes) (buf : Nat × Nat) (fa : Nat) :
    csvStep none firstA row = csvStep fp firstA row
    ∧ Event.csvRowWrite row ∈ csvStep none firstA row
    ∧ Event.csvOpen ∈ csvStep none firstA row
    ∧ (runIteration oc buf fa).events.countP Event.isCsvOpen = 1 := by
  refine ⟨rfl, ?_, ?_, runIteration_countP_open oc buf fa⟩
  · unfold csvStep
    split <;> simp
  · unfold csvStep
    split <;> simp

/-- The transport behaviour of the C4 scenario: every read succeeds and
returns the raw values temp1 = temp2 = 0x0500, HV = 0x1400, LV = 0x0A00,
I2 = 0x0200, I1 = 0x0300, cnt = 0x0007, status = 0x0000 (bytes low-first). -/
def ocC4 : IterOutcomes :=
  ⟨some (0x00, 0x05), some (0x00, 0x05), some (0x00, 0x14), some (0x00, 0x0A),
   some (0x00, 0x02), some (0x00, 0x03), some (0x07, 0x00), some (0x00, 0x00), some ()⟩

/-- The record decoded by the C4 scenario, field by field. -/
lemma c4rec_eq :
    (runIteration ocC4 (0, 0) 0).record
      = ⟨1280, 0, 1280, 0, 5120, 160, 2560, 80, 512, 16, 768, 24, 7, 0⟩ := by
  show TelemetryRecord.mk
      (toInt16 (assembleRaw 0x00 0x05)) (decode_temperature (assembleRaw 0x00 0x05))
      (toInt16 (assembleRaw 0x00 0x05)) (decode_temperature (assembleRaw 0x00 0x05))
      (toInt16 (assembleRaw 0x00 0x14)) (decode_voltage_or_current (assembleRaw 0x00 0x14))
      (toInt16 (assembleRaw 0x00 0x0A)) (decode_voltage_or_current (assembleRaw 0x00 0x0A))
      (toInt16 (assembleRaw 0x00 0x02)) (decode_voltage_or_current (assembleRaw 0x00 0x02))
      (toInt16 (assembleRaw 0x00 0x03)) (decode_voltage_or_current (assembleRaw 0x00 0x03))
      (toInt16 (assembleRaw 0x07 0x00)) (toInt16 (assembleRaw 0x00 0x00))
    = ⟨1280, 0, 1280, 0, 5120, 160, 2560, 80, 512, 16, 768, 24, 7, 0⟩
  congr 1 <;> with_unfolding_all decide

/-- The CSV row the C4 scenario appends. -/
lemma c4row_eq :
    csvRow (runIteration ocC4 (0, 0) 0).record
      = "160.00,80.00,24.00,16.00,0.00,0.00,7,0x0\n" := by
  rw [c4rec_eq]
  with_unfolding_all decide

/-- The stderr record line the C4 scenario prints. -/
lemma c4line_eq :
    recordLine (runIteration ocC4 (0, 0) 0).record
      = "HV_V=160.00, LV_V=80.00, I1_A=24.00, I2_A=16.00, Temp1_C=0.00, Temp2_C=0.00, I1_CNT=7, DUT_Status=0x0" := by
  rw [c4rec_eq]
  with_unfolding_all decide

/-- C4 counterexample: the CSV row produced by the scenario is not the
claimed `0.00,160.00,24.00,16.00,0.00,0.00,7,0x0\n` — the row starts with
HV then LV (`160.00,80.00,...`); the claimed row drops the LV field `80.00`
and puts a temperature first. -/
theorem c4_claimed_row_wrong :
    csvRow (runIteration ocC4 (0, 0) 0).record
      ≠ "0.00,160.00,24.00,16.00,0.00,0.00,7,0x0\n" := by
  rw [c4row_eq]
  decide

/-- C4 (amended): the scenario decodes to Temp1_C = 0.00, Temp2_C = 0.00,
HV = 160.00, LV = 80.00, I2 = 16.00, I1 = 24.00, I1_CNT = 7, status = 0, and
the first iteration appends the row `160.00,80.00,24.00,16.00,0.00,0.00,7,0x0\n`
to the CSV log, with the header written immediately before it. -/
theorem c4_end_to_end :
    (runIteration ocC4 (0, 0) 0).record
      = ⟨1280, 0, 1280, 0, 5120, 160, 2560, 80, 512, 16, 768, 24, 7, 0⟩
    ∧ csvRow (runIteration ocC4 (0, 0) 0).record
      = "160.00,80.00,24.00,16.00,0.00,0.00,7,0x0\n"
    ∧ (runIteration ocC4 (0, 0) 0).events =
      [Event.readReq 0x8D, Event.readReq 0x8E, Event.readReq 0x88, Event.readReq 0x8B,
       Event.readReq 0x8C, Event.readReq 0x90, Event.readReq 0xCD, Event.readReq 0x79,
       Event.diag "HV_V=160.00, LV_V=80.00, I1_A=24.00, I2_A=16.00, Temp1_C=0.00, Temp2_C=0.00, I1_CNT=7, DUT_Status=0x0",
       Event.csvOpen, Event.csvHeaderWrite headerLine,
       Event.csvRowWrite "160.00,80.00,24.00,16.00,0.00,0.00,7,0x0\n",
       Event.csvClose, Event.sleepMs 500] := by
  refine ⟨c4rec_eq, c4row_eq, ?_⟩
  rw [runIteration_events, c4row_eq, c4line_eq]
  rfl
